import Mathlib

/-!
Verification of the PLTR stock data service (ingestor + Flask API).

The embedding models:
- `data_ingestion.py`: `pandas.DataFrame.to_sql('stocks', ..., if_exists='replace')`
  as a drop/create/insert-all sequence on a store holding an optional `stocks` table.
- `routes.py`: the three route handlers `get_stocks`, `get_stocks_by_date` and
  `health_check`, over an explicit database outcome (connect failure, query
  failure, or a list of rows), producing a JSON response value and a connection
  log recording whether the per-request connection was opened and closed.

SQLite values are dynamically typed, so row fields are a sum of integer, real,
text and null; Python's `float(...)` and `int(...)` coercions at the
serialization boundary are modelled as fallible conversions (`Except`), whose
failure corresponds to a `ValueError` caught by the handler's generic
`except Exception` branch. Real numbers are modelled exactly, as integer
numerator over natural denominator (a power of ten for parsed decimals);
the claims only transport float values, never round or compare them
arithmetically, so the exact representation is adequate.
-/

/-- An exact model of a Python float: `num / den`. Values are only ever
constructed and carried through to the response, never computed with, so
the representation is kept unnormalized. -/
structure PyFloat where
  num : Int
  den : Nat
deriving Repr, DecidableEq

/-- A dynamically typed SQLite column value. -/
inductive SQLVal where
  | int (i : Int)
  | real (f : PyFloat)
  | text (s : String)
  | null
deriving Repr, DecidableEq

/-- A row of the `stocks` table, one field per column of the ingested CSV.
The `date` column is the string-encoded `YYYY-MM-DD` key; the remaining
columns carry whatever dynamic type the store returns. -/
structure Row where
  date : String
  «open» : SQLVal
  high : SQLVal
  low : SQLVal
  close : SQLVal
  adj_close : SQLVal
  volume : SQLVal
deriving Repr, DecidableEq

/-- A JSON value as produced by Flask's `jsonify`; Python floats and ints
serialize differently, so they are kept as distinct constructors. -/
inductive JsonVal where
  | str (s : String)
  | jint (i : Int)
  | jfloat (f : PyFloat)
  | bool (b : Bool)
  | arr (items : List JsonVal)
  | obj (fields : List (String × JsonVal))

/-- Field lookup in a JSON object (first binding wins), `none` on non-objects. -/
def JsonVal.getField (j : JsonVal) (k : String) : Option JsonVal :=
  match j with
  | .obj fs => (fs.find? (fun p => p.1 == k)).map (fun p => p.2)
  | _ => none

/-- An HTTP response: status code plus JSON body. -/
structure Response where
  status : Nat
  body : JsonVal

/-- Whether the handler opened, and whether it closed, its per-request
database connection. -/
structure ConnLog where
  opened : Bool
  closed : Bool
deriving Repr, DecidableEq

/-- Outcome of the database access for one request: `sqlite3.connect` raised,
`conn.execute(...)` raised, or the query returned a list of rows
(in rowid order for the unordered date query). -/
inductive DBOutcome where
  | connectFail (msg : String)
  | queryFail (msg : String)
  | ok (rows : List Row)

/- ### Python numeric coercions -/

/-- Sign parsing for Python numeric literals: optional leading `+` or `-`. -/
def parseSign : List Char → Int × List Char
  | '+' :: rest => (1, rest)
  | '-' :: rest => (-1, rest)
  | cs => (1, cs)

/-- All characters are ASCII decimal digits. -/
def allDigits (cs : List Char) : Bool := cs.all (fun c => c.isDigit)

/-- Value of a decimal digit string (most significant first). -/
def digitsToNat (cs : List Char) : Nat :=
  cs.foldl (fun n c => n * 10 + (c.toNat - 48)) 0

/-- Split a character list at the first character satisfying `p`:
`some (before, after)` when found, `none` otherwise. -/
def splitFirstOk (p : Char → Bool) : List Char → Option (List Char × List Char)
  | [] => none
  | c :: cs =>
    if p c then some ([], cs)
    else (splitFirstOk p cs).map (fun q => (c :: q.1, q.2))

/-- Python's `str.strip()` on a character list: drop leading and trailing
whitespace. -/
def trimChars (cs : List Char) : List Char :=
  ((cs.dropWhile (fun c => c.isWhitespace)).reverse.dropWhile
    (fun c => c.isWhitespace)).reverse

/-- Mantissa of a Python float literal: optional sign, digits with an optional
single decimal point, at least one digit overall (`1.`, `.5` are valid; `.`
and the empty string are not). The value is the digit string over a power
of ten. -/
def parseMantissa (cs : List Char) : Option PyFloat :=
  let sc := parseSign cs
  let parts : List Char × List Char :=
    match splitFirstOk (fun c => c == '.') sc.2 with
    | none => (sc.2, [])
    | some q => q
  if allDigits parts.1 && allDigits parts.2 && !(parts.1.isEmpty && parts.2.isEmpty) then
    some ⟨sc.1 * Int.ofNat (digitsToNat (parts.1 ++ parts.2)), 10 ^ parts.2.length⟩
  else
    none

/-- Exponent of a Python float literal: optional sign then nonempty digits. -/
def parseExp (cs : List Char) : Option Int :=
  let sc := parseSign cs
  if !sc.2.isEmpty && allDigits sc.2 then
    some (sc.1 * Int.ofNat (digitsToNat sc.2))
  else
    none

/-- Scale a float by `10 ^ e`. -/
def applyExp (f : PyFloat) (e : Int) : PyFloat :=
  if 0 ≤ e then ⟨f.num * Int.ofNat (10 ^ e.toNat), f.den⟩
  else ⟨f.num, f.den * 10 ^ (-e).toNat⟩

/-- The string accepted by Python's `float(...)` constructor (whitespace
stripped, optional sign, decimal mantissa, optional `e`/`E` exponent).
Special values such as `inf`/`nan` are treated as failures here; they
cannot arise from numeric stock data. -/
def parseFloat (s : String) : Option PyFloat :=
  let cs := trimChars s.data
  match splitFirstOk (fun c => c == 'e' || c == 'E') cs with
  | none => parseMantissa cs
  | some q => do
    let m ← parseMantissa q.1
    let e ← parseExp q.2
    some (applyExp m e)

/-- The string accepted by Python's `int(...)` constructor (whitespace
stripped, optional sign, nonempty digits; `int("3.5")` fails). -/
def parseInt (s : String) : Option Int :=
  let sc := parseSign (trimChars s.data)
  if !sc.2.isEmpty && allDigits sc.2 then
    some (sc.1 * Int.ofNat (digitsToNat sc.2))
  else
    none

/-- Python `int(...)` truncation of a float toward zero (division of
numerator by denominator, rounding toward zero). -/
def truncFloat (f : PyFloat) : Int :=
  Int.tdiv f.num (Int.ofNat f.den)

/-- Python's `float(x)` on a SQLite value: identity on numerics, string
parsing on text, `TypeError` on `NULL`. Failure carries the exception text. -/
def pyFloatE (v : SQLVal) : Except String PyFloat :=
  match v with
  | .int i => .ok ⟨i, 1⟩
  | .real f => .ok f
  | .text s =>
    match parseFloat s with
    | some f => .ok f
    | none => .error ("could not convert string to float: " ++ s)
  | .null => .error "float() argument must be a string or a real number, not NoneType"

/-- Python's `int(x)` on a SQLite value: identity on integers, truncation
toward zero on reals, strict integer parsing on text, `TypeError` on `NULL`. -/
def pyIntE (v : SQLVal) : Except String Int :=
  match v with
  | .int i => .ok i
  | .real f => .ok (truncFloat f)
  | .text s =>
    match parseInt s with
    | some i => .ok i
    | none => .error ("invalid literal for int() with base 10: " ++ s)
  | .null => .error "int() argument must be a string, a bytes-like object or a real number, not NoneType"

/- ### Row serialization (the dict built from each sqlite3.Row) -/

/-- The `stock_record` dictionary both handlers build from a row:
`date` verbatim, the five price fields through `float(...)`, `volume`
through `int(...)`. Any coercion failure propagates as the exception. -/
def rowToRecord (r : Row) : Except String (List (String × JsonVal)) :=
  match pyFloatE r.«open» with
  | .error e => .error e
  | .ok o =>
    match pyFloatE r.high with
    | .error e => .error e
    | .ok hi =>
      match pyFloatE r.low with
      | .error e => .error e
      | .ok lo =>
        match pyFloatE r.close with
        | .error e => .error e
        | .ok c =>
          match pyFloatE r.adj_close with
          | .error e => .error e
          | .ok a =>
            match pyIntE r.volume with
            | .error e => .error e
            | .ok v =>
              .ok [("date", .str r.date), ("open", .jfloat o), ("high", .jfloat hi),
                   ("low", .jfloat lo), ("close", .jfloat c), ("adj_close", .jfloat a),
                   ("volume", .jint v)]

/-- The conversion loop of `get_stocks`: convert rows in order, the first
failing row aborts the whole response (its exception reaches the handler's
`except` clauses). -/
def convertAll : List Row → Except String (List (List (String × JsonVal)))
  | [] => .ok []
  | r :: rs =>
    match rowToRecord r with
    | .error e => .error e
    | .ok rec =>
      match convertAll rs with
      | .error e => .error e
      | .ok recs => .ok (rec :: recs)

/- ### ORDER BY date -/

/-- SQLite's BINARY collation on text values (as used by `ORDER BY date`):
lexicographic comparison, character by character. -/
def lexLeb : List Char → List Char → Bool
  | [], _ => true
  | _ :: _, [] => false
  | a :: as, b :: bs =>
    if a < b then true
    else if b < a then false
    else lexLeb as bs

/-- The comparison realized by `ORDER BY date`: lexicographic string order
on the `date` column. -/
def dateLe (a b : Row) : Prop := a.date ≤ b.date

theorem lexLeb_iff_not_lt (as bs : List Char) : lexLeb as bs = true ↔ ¬ List.lt bs as := by
  induction as generalizing bs with
  | nil =>
    cases bs with
    | nil =>
      simp only [lexLeb, true_iff]
      intro h
      cases h
    | cons b bs2 =>
      simp only [lexLeb, true_iff]
      intro h
      cases h
  | cons a as2 ih =>
    cases bs with
    | nil =>
      simp only [lexLeb, Bool.false_eq_true, false_iff, not_not]
      exact List.lt.nil a as2
    | cons b bs2 =>
      by_cases hab : a < b
      · simp only [lexLeb, hab, if_pos, true_iff]
        intro h
        cases h with
        | head _ _ hba => exact absurd hab (asymm hba)
        | tail h1 h2 h3 => exact h2 hab
      · by_cases hba : b < a
        · simp only [lexLeb, hab, hba, if_neg, if_pos, not_false_eq_true,
            Bool.false_eq_true, false_iff, not_not]
          exact List.lt.head _ _ hba
        · simp only [lexLeb, hab, hba, if_neg, not_false_eq_true]
          rw [ih bs2]
          constructor
          · intro hn h
            cases h with
            | head _ _ h0 => exact hba h0
            | tail _ _ h3 => exact hn h3
          · intro hn h3
            exact hn (List.lt.tail hba hab h3)

theorem lexLeb_iff_le (a b : String) : lexLeb a.data b.data = true ↔ a ≤ b := by
  rw [String.le_iff_toList_le, ← not_lt, lexLeb_iff_not_lt]
  exact not_congr (List.lt_iff_lex_lt b.data a.data)

instance : DecidableRel dateLe := fun a b =>
  decidable_of_iff (lexLeb a.date.data b.date.data = true) (lexLeb_iff_le a.date b.date)

instance : IsTotal Row dateLe := ⟨fun a b => le_total a.date b.date⟩

instance : IsTrans Row dateLe := ⟨fun _ _ _ h1 h2 => le_trans h1 h2⟩

/-- `SELECT * FROM stocks ORDER BY date`: the table's rows, stably sorted
non-decreasing by the `date` string. -/
def sortByDate (l : List Row) : List Row := List.insertionSort dateLe l

/- ### Error body shared by all failure responses -/

/-- The common error body `{success: false, error: <label>, message: <detail>}`. -/
def errObj (label msg : String) : JsonVal :=
  .obj [("success", .bool false), ("error", .str label), ("message", .str msg)]

/- ### GET /api/stocks -/

/-- Handler of `GET /api/stocks` (`routes.py`, `get_stocks`): open a
connection, fetch all rows ordered by date, convert each row, close the
connection, respond 200; `sqlite3.Error` yields a 500 `"Database error"`
body, any other exception a 500 `"Internal server error"` body. The
connection log records that `conn.close()` runs only after a successful
query AND successful conversion of every row, since the conversion loop
precedes the `conn.close()` call inside the `try` block. -/
def get_stocks (db : DBOutcome) : Response × ConnLog :=
  match db with
  | .connectFail msg => (⟨500, errObj "Database error" msg⟩, ⟨false, false⟩)
  | .queryFail msg => (⟨500, errObj "Database error" msg⟩, ⟨true, false⟩)
  | .ok rows =>
    match convertAll (sortByDate rows) with
    | .error e => (⟨500, errObj "Internal server error" e⟩, ⟨true, false⟩)
    | .ok recs =>
      (⟨200, .obj [("success", .bool true),
                   ("data", .arr (recs.map JsonVal.obj)),
                   ("count", .jint recs.length),
                   ("message", .str ("Successfully retrieved " ++ toString recs.length
                      ++ " stock records"))]⟩,
       ⟨true, true⟩)

/- ### GET /api/stocks/date/<date> -/

/-- The constant text of the parameterized date query; the user-supplied
date never appears in it. -/
def queryText : String := "SELECT * FROM stocks WHERE date = ?"

/-- A SQL query with bound parameters: fixed text plus a parameter list. -/
structure BoundQuery where
  text : String
  params : List String

/-- The query `conn.execute("SELECT * FROM stocks WHERE date = ?", (date,))`
builds: constant text, the raw date string as the single bound parameter. -/
def dateQuery (date : String) : BoundQuery := ⟨queryText, [date]⟩

/-- `fetchone` on the bound equality query: the first row whose `date`
column equals the bound parameter string exactly. -/
def fetchone (rows : List Row) (q : BoundQuery) : Option Row :=
  match q.params with
  | [p] => rows.find? (fun r => r.date == p)
  | _ => none

/-- Handler of `GET /api/stocks/date/<date>` (`routes.py`,
`get_stocks_by_date`): open a connection, run the parameterized equality
query, `fetchone`, close the connection, then either convert and respond
200, or respond 404 when no row matched. Here `conn.close()` precedes the
row conversion, so a conversion failure still leaves the connection closed;
a query failure does not. The `sqlite3.Error` label is `"Database Error"`
and the generic label `"Internal Server Error"` (capitalized differently
from `get_stocks`). -/
def get_stocks_by_date (db : DBOutcome) (date : String) : Response × ConnLog :=
  match db with
  | .connectFail msg => (⟨500, errObj "Database Error" msg⟩, ⟨false, false⟩)
  | .queryFail msg => (⟨500, errObj "Database Error" msg⟩, ⟨true, false⟩)
  | .ok rows =>
    match fetchone rows (dateQuery date) with
    | some r =>
      match rowToRecord r with
      | .error e => (⟨500, errObj "Internal Server Error" e⟩, ⟨true, true⟩)
      | .ok rec =>
        (⟨200, .obj [("success", .bool true),
                     ("data", .obj rec),
                     ("message", .str ("Successfully retrieved stock data for " ++ date))]⟩,
         ⟨true, true⟩)
    | none =>
      (⟨404, errObj "Not found" ("No stock data found for date " ++ date)⟩,
       ⟨true, true⟩)

/- ### GET /api/health -/

/-- A Python `datetime` value as produced by `datetime.now()`. -/
structure PyDateTime where
  year : Nat
  month : Nat
  day : Nat
  hour : Nat
  minute : Nat
  second : Nat
  microsecond : Nat

/-- The ASCII character of a decimal digit. -/
def digitChar (d : Nat) : Char := Char.ofNat (48 + d)

/-- Two-digit zero-padded decimal rendering. -/
def pad2 (n : Nat) : List Char := [digitChar (n / 10 % 10), digitChar (n % 10)]

/-- Four-digit zero-padded decimal rendering. -/
def pad4 (n : Nat) : List Char :=
  [digitChar (n / 1000 % 10), digitChar (n / 100 % 10), digitChar (n / 10 % 10),
   digitChar (n % 10)]

/-- Six-digit zero-padded decimal rendering. -/
def pad6 (n : Nat) : List Char :=
  [digitChar (n / 100000 % 10), digitChar (n / 10000 % 10), digitChar (n / 1000 % 10),
   digitChar (n / 100 % 10), digitChar (n / 10 % 10), digitChar (n % 10)]

/-- `datetime.isoformat()`: `YYYY-MM-DDTHH:MM:SS` with a `.ffffff` suffix
exactly when the microsecond field is nonzero. -/
def PyDateTime.isoformat (dt : PyDateTime) : String :=
  ⟨pad4 dt.year ++ '-' :: pad2 dt.month ++ '-' :: pad2 dt.day ++
   'T' :: pad2 dt.hour ++ ':' :: pad2 dt.minute ++ ':' :: pad2 dt.second ++
   (if dt.microsecond == 0 then [] else '.' :: pad6 dt.microsecond)⟩

/-- ASCII decimal digit test. -/
def isDigitChar (c : Char) : Bool := 48 ≤ c.toNat && c.toNat ≤ 57

/-- Structural ISO-8601 timestamp check: `YYYY-MM-DDTHH:MM:SS` optionally
followed by `.ffffff`, digits in all numeric positions. -/
def isIso8601 (s : String) : Bool :=
  match s.data with
  | y1 :: y2 :: y3 :: y4 :: '-' :: m1 :: m2 :: '-' :: d1 :: d2 ::
    'T' :: h1 :: h2 :: ':' :: n1 :: n2 :: ':' :: s1 :: s2 :: rest =>
    ([y1, y2, y3, y4, m1, m2, d1, d2, h1, h2, n1, n2, s1, s2]).all isDigitChar &&
    (match rest with
     | [] => true
     | '.' :: us => us.length == 6 && us.all isDigitChar
     | _ => false)
  | _ => false

/-- Handler of `GET /api/health` (`routes.py`, `health_check`): a constant
200 body built from the current time only; the store outcome parameter
models the environment the handler runs in and is never consulted — no
connection is opened. -/
def health_check (store : DBOutcome) (now : PyDateTime) : Response × ConnLog :=
  (⟨200, .obj [("status", .str "healthy"), ("timestamp", .str now.isoformat)]⟩,
   ⟨false, false⟩)

/- ### Ingestion (data_ingestion.py) -/

/-- The persistent store: the `stocks` table, when it exists. -/
structure Store where
  stocks : Option (List Row)

/-- `if_exists='replace'`, step 1: drop the existing `stocks` table. -/
def dropTable (_s : Store) : Store := ⟨none⟩

/-- `if_exists='replace'`, step 2: create a fresh empty `stocks` table. -/
def createTable (_s : Store) : Store := ⟨some []⟩

/-- Insert one DataFrame row at the end of the `stocks` table. -/
def insertRow (s : Store) (r : Row) : Store := ⟨s.stocks.map (fun t => t ++ [r])⟩

/-- `df.to_sql('stocks', con=engine, if_exists='replace', index=False)`:
drop, recreate, then insert every row of the frame in order. -/
def to_sql_replace (df : List Row) (s : Store) : Store :=
  df.foldl insertRow (createTable (dropTable s))

/-- One run of `data_ingestion.py` against a parsed CSV: the full-replace
load into the `stocks` table. -/
def run_ingestion (csvRows : List Row) (s : Store) : Store :=
  to_sql_replace csvRows s

/- ### Observation helpers on serialized records -/

/-- The `date` field of a serialized stock record (empty string when absent). -/
def recDateStr (rec : List (String × JsonVal)) : String :=
  match rec.find? (fun p => p.1 == "date") with
  | some (_, .str s) => s
  | _ => ""

/-- A serialized stock record is well typed: `date` a string, the five price
fields Python floats, `volume` a Python integer. -/
def recordWellTyped : JsonVal → Bool
  | .obj [("date", .str _), ("open", .jfloat _), ("high", .jfloat _), ("low", .jfloat _),
          ("close", .jfloat _), ("adj_close", .jfloat _), ("volume", .jint _)] => true
  | _ => false

/- ## Helper lemmas -/

theorem rowToRecord_ok_shape {r : Row} {rec : List (String × JsonVal)}
    (h : rowToRecord r = .ok rec) :
    ∃ o hi lo c a v, rec = [("date", JsonVal.str r.date), ("open", JsonVal.jfloat o),
      ("high", JsonVal.jfloat hi), ("low", JsonVal.jfloat lo), ("close", JsonVal.jfloat c),
      ("adj_close", JsonVal.jfloat a), ("volume", JsonVal.jint v)] := by
  unfold rowToRecord at h
  cases h1 : pyFloatE r.«open» with
  | error e => simp [h1] at h
  | ok o =>
  cases h2 : pyFloatE r.high with
  | error e => simp [h1, h2] at h
  | ok hi =>
  cases h3 : pyFloatE r.low with
  | error e => simp [h1, h2, h3] at h
  | ok lo =>
  cases h4 : pyFloatE r.close with
  | error e => simp [h1, h2, h3, h4] at h
  | ok c =>
  cases h5 : pyFloatE r.adj_close with
  | error e => simp [h1, h2, h3, h4, h5] at h
  | ok a =>
  cases h6 : pyIntE r.volume with
  | error e => simp [h1, h2, h3, h4, h5, h6] at h
  | ok v =>
    simp only [h1, h2, h3, h4, h5, h6, Except.ok.injEq] at h
    exact ⟨o, hi, lo, c, a, v, h.symm⟩

theorem recDateStr_of_rowToRecord {r : Row} {rec : List (String × JsonVal)}
    (h : rowToRecord r = .ok rec) : recDateStr rec = r.date := by
  obtain ⟨o, hi, lo, c, a, v, hrec⟩ := rowToRecord_ok_shape h
  subst hrec
  rfl

theorem recordWellTyped_of_rowToRecord {r : Row} {rec : List (String × JsonVal)}
    (h : rowToRecord r = .ok rec) : recordWellTyped (.obj rec) = true := by
  obtain ⟨o, hi, lo, c, a, v, hrec⟩ := rowToRecord_ok_shape h
  subst hrec
  rfl

theorem convertAll_length {l : List Row} {recs : List (List (String × JsonVal))}
    (h : convertAll l = .ok recs) : recs.length = l.length := by
  induction l generalizing recs with
  | nil =>
    cases h
    rfl
  | cons r rs ih =>
    unfold convertAll at h
    cases h1 : rowToRecord r with
    | error e => simp [h1] at h
    | ok rec0 =>
    cases h2 : convertAll rs with
    | error e => simp [h1, h2] at h
    | ok recs2 =>
      simp only [h1, h2, Except.ok.injEq] at h
      subst h
      simpa using ih h2

theorem convertAll_mem {l : List Row} {recs : List (List (String × JsonVal))}
    (h : convertAll l = .ok recs) :
    ∀ rec ∈ recs, ∃ r, r ∈ l ∧ rowToRecord r = .ok rec := by
  induction l generalizing recs with
  | nil =>
    cases h
    intro rec hrec
    cases hrec
  | cons r rs ih =>
    unfold convertAll at h
    cases h1 : rowToRecord r with
    | error e => simp [h1] at h
    | ok rec0 =>
    cases h2 : convertAll rs with
    | error e => simp [h1, h2] at h
    | ok recs2 =>
      simp only [h1, h2, Except.ok.injEq] at h
      subst h
      intro rec hrec
      rcases List.mem_cons.mp hrec with he | ht
      · subst he
        exact ⟨r, List.mem_cons_self _ _, h1⟩
      · rcases ih h2 rec ht with ⟨r2, hr2, hc2⟩
        exact ⟨r2, List.mem_cons_of_mem _ hr2, hc2⟩

theorem convertAll_sorted_dates {l : List Row} {recs : List (List (String × JsonVal))}
    (h : convertAll l = .ok recs) (hs : List.Pairwise dateLe l) :
    List.Pairwise (fun a b => recDateStr a ≤ recDateStr b) recs := by
  induction l generalizing recs with
  | nil =>
    cases h
    exact List.Pairwise.nil
  | cons r rs ih =>
    unfold convertAll at h
    cases h1 : rowToRecord r with
    | error e => simp [h1] at h
    | ok rec0 =>
    cases h2 : convertAll rs with
    | error e => simp [h1, h2] at h
    | ok recs2 =>
      simp only [h1, h2, Except.ok.injEq] at h
      subst h
      rcases List.pairwise_cons.mp hs with ⟨hr, hrs⟩
      refine List.Pairwise.cons ?_ (ih h2 hrs)
      intro b hb
      rcases convertAll_mem h2 b hb with ⟨r2, hr2, hc2⟩
      rw [recDateStr_of_rowToRecord h1, recDateStr_of_rowToRecord hc2]
      exact hr r2 hr2

theorem find_first_unique {rows : List Row} {d : String} {r : Row}
    (hmem : r ∈ rows) (hdate : r.date = d)
    (huniq : ∀ r2 ∈ rows, r2.date = d → r2 = r) :
    rows.find? (fun x => x.date == d) = some r := by
  induction rows with
  | nil => cases hmem
  | cons x xs ih =>
    by_cases hx : x.date = d
    · have hxr : x = r := huniq x (List.mem_cons_self _ _) hx
      rw [List.find?_cons_of_pos _ (by simpa using hx), hxr]
    · have hmem2 : r ∈ xs := by
        rcases List.mem_cons.mp hmem with h | h
        · exact absurd (h ▸ hdate) hx
        · exact h
      rw [List.find?_cons_of_neg _ (by simpa using hx)]
      exact ih hmem2 (fun r2 h2 hd2 => huniq r2 (List.mem_cons_of_mem _ h2) hd2)

theorem find_date_congr (rows : List Row) (d1 d2 : String)
    (h : ∀ r ∈ rows, (r.date = d1 ↔ r.date = d2)) :
    rows.find? (fun x => x.date == d1) = rows.find? (fun x => x.date == d2) := by
  induction rows with
  | nil => rfl
  | cons x xs ih =>
    have hx := h x (List.mem_cons_self _ _)
    by_cases hx2 : x.date = d2
    · rw [List.find?_cons_of_pos _ (by simpa using hx.mpr hx2),
        List.find?_cons_of_pos _ (by simpa using hx2)]
    · rw [List.find?_cons_of_neg _ (by simpa using fun hc => hx2 (hx.mp hc)),
        List.find?_cons_of_neg _ (by simpa using hx2)]
      exact ih (fun r hr => h r (List.mem_cons_of_mem _ hr))

theorem foldl_insertRow_some (df acc : List Row) :
    (df.foldl insertRow ⟨some acc⟩).stocks = some (acc ++ df) := by
  induction df generalizing acc with
  | nil => simp
  | cons r rs ih =>
    have : insertRow ⟨some acc⟩ r = ⟨some (acc ++ [r])⟩ := rfl
    simpa [List.foldl, this] using ih (acc ++ [r])

theorem digitChar_mod_isDigit (x : Nat) : isDigitChar (digitChar (x % 10)) = true := by
  have hall : ∀ d, d < 10 → isDigitChar (digitChar d) = true := by decide
  exact hall (x % 10) (Nat.mod_lt x (by omega))

theorem isoformat_isIso8601 (dt : PyDateTime) : isIso8601 dt.isoformat = true := by
  unfold PyDateTime.isoformat isIso8601 pad4 pad2 pad6
  cases h : dt.microsecond == 0 <;>
    simp [h, List.all, digitChar_mod_isDigit]

/- ## Claim theorems -/

/-- C1: For every state of the stocks table, GET /api/stocks returns status
200 with a JSON object whose data field lists every row of the table sorted
non-decreasing by the date string, whose count field equals the length of
that list, and whose success field is true. (The table state is a list of
rows whose fields coerce, i.e. a table of stock records; `h` fixes the
serialized records.) -/
theorem get_stocks_all_sorted (rows : List Row)
    (recs : List (List (String × JsonVal)))
    (h : convertAll (sortByDate rows) = .ok recs) :
    (get_stocks (.ok rows)).1.status = 200 ∧
    (get_stocks (.ok rows)).1.body.getField "success" = some (.bool true) ∧
    (get_stocks (.ok rows)).1.body.getField "data" = some (.arr (recs.map JsonVal.obj)) ∧
    (get_stocks (.ok rows)).1.body.getField "count" = some (.jint recs.length) ∧
    recs.length = rows.length ∧
    List.Perm (sortByDate rows) rows ∧
    List.Pairwise (fun a b => recDateStr a ≤ recDateStr b) recs := by
  have hg : get_stocks (.ok rows) =
      (⟨200, .obj [("success", .bool true),
                   ("data", .arr (recs.map JsonVal.obj)),
                   ("count", .jint recs.length),
                   ("message", .str ("Successfully retrieved " ++ toString recs.length
                      ++ " stock records"))]⟩,
       ⟨true, true⟩) := by
    simp only [get_stocks]
    rw [h]
  refine ⟨by rw [hg], by rw [hg]; rfl, by rw [hg]; rfl, by rw [hg]; rfl, ?_, ?_, ?_⟩
  · rw [convertAll_length h]
    exact (List.perm_insertionSort dateLe rows).length_eq
  · exact List.perm_insertionSort dateLe rows
  · exact convertAll_sorted_dates h (List.sorted_insertionSort dateLe rows)

/-- C1 witness: a concrete two-row table (out of date order) yields the 200
response with both records sorted by date. -/
theorem get_stocks_all_sorted_w :
    (get_stocks (.ok
      [⟨"2020-10-01", .int 9, .int 10, .int 8, .int 9, .int 9, .int 200⟩,
       ⟨"2020-09-30", .int 10, .int 11, .int 9, .int 9, .int 9, .int 100⟩])).1.status = 200 ∧
    (get_stocks (.ok
      [⟨"2020-10-01", .int 9, .int 10, .int 8, .int 9, .int 9, .int 200⟩,
       ⟨"2020-09-30", .int 10, .int 11, .int 9, .int 9, .int 9, .int 100⟩])).1.body.getField
      "count" = some (.jint 2) :=
  have h := get_stocks_all_sorted
    [⟨"2020-10-01", .int 9, .int 10, .int 8, .int 9, .int 9, .int 200⟩,
     ⟨"2020-09-30", .int 10, .int 11, .int 9, .int 9, .int 9, .int 100⟩]
    [[("date", .str "2020-09-30"), ("open", .jfloat ⟨10, 1⟩), ("high", .jfloat ⟨11, 1⟩),
      ("low", .jfloat ⟨9, 1⟩), ("close", .jfloat ⟨9, 1⟩), ("adj_close", .jfloat ⟨9, 1⟩),
      ("volume", .jint 100)],
     [("date", .str "2020-10-01"), ("open", .jfloat ⟨9, 1⟩), ("high", .jfloat ⟨10, 1⟩),
      ("low", .jfloat ⟨8, 1⟩), ("close", .jfloat ⟨9, 1⟩), ("adj_close", .jfloat ⟨9, 1⟩),
      ("volume", .jint 200)]]
    rfl
  ⟨h.1, h.2.2.2.1⟩

/-- C2: A run of the ingestor on a file with N rows leaves the stocks table
holding exactly those N rows; a second run on a file of M rows leaves
exactly those M rows — prior contents are fully replaced, never appended
to or merged. -/
theorem ingestion_full_replace (dfN dfM : List Row) (s : Store) :
    (run_ingestion dfN s).stocks = some dfN ∧
    (run_ingestion dfN s).stocks.map List.length = some dfN.length ∧
    (run_ingestion dfM (run_ingestion dfN s)).stocks = some dfM ∧
    (run_ingestion dfM (run_ingestion dfN s)).stocks.map List.length = some dfM.length := by
  have h1 : (run_ingestion dfN s).stocks = some dfN := by
    simpa using foldl_insertRow_some dfN []
  have h2 : (run_ingestion dfM (run_ingestion dfN s)).stocks = some dfM := by
    simpa using foldl_insertRow_some dfM []
  exact ⟨h1, by rw [h1]; rfl, h2, by rw [h2]; rfl⟩

/-- C4: For every date string d matching no row of the table,
GET /api/stocks/date/d returns status 404 with body
{success: false, error: "Not found", message: "No stock data found for date d"}. -/
theorem get_stocks_by_date_not_found (rows : List Row) (d : String)
    (habs : ∀ r ∈ rows, r.date ≠ d) :
    (get_stocks_by_date (.ok rows) d).1 =
      ⟨404, errObj "Not found" ("No stock data found for date " ++ d)⟩ := by
  have hf : fetchone rows (dateQuery d) = none := by
    simp only [fetchone, dateQuery]
    rw [List.find?_eq_none]
    intro r hr
    simpa using habs r hr
  simp only [get_stocks_by_date]
  rw [hf]

/-- C4 witness: a weekend date absent from a concrete one-row table gets the
404 not-found body. -/
theorem get_stocks_by_date_not_found_w :
    (get_stocks_by_date (.ok
      [⟨"2020-09-30", .int 10, .int 11, .int 9, .int 9, .int 9, .int 100⟩])
      "2020-10-03").1 =
      ⟨404, errObj "Not found" "No stock data found for date 2020-10-03"⟩ :=
  get_stocks_by_date_not_found
    [⟨"2020-09-30", .int 10, .int 11, .int 9, .int 9, .int 9, .int 100⟩]
    "2020-10-03" (by decide)

/-- C7: GET /api/health always returns status 200 with status field
"healthy" and an ISO-8601 timestamp, for every store state; it never opens
a store connection and its response is independent of the store state. -/
theorem health_check_always_healthy (store store2 : DBOutcome) (now : PyDateTime) :
    (health_check store now).1.status = 200 ∧
    (health_check store now).1.body.getField "status" = some (.str "healthy") ∧
    (∃ ts, (health_check store now).1.body.getField "timestamp" = some (.str ts) ∧
      isIso8601 ts = true) ∧
    (health_check store now).2.opened = false ∧
    (health_check store now).2.closed = false ∧
    health_check store now = health_check store2 now :=
  ⟨rfl, rfl, ⟨now.isoformat, rfl, isoformat_isIso8601 now⟩, rfl, rfl, rfl⟩

/-- C3: For every date string d matching the date column of some row of the
table (unique, per the one-record-per-date invariant), GET /api/stocks/date/d
returns status 200 with success true and a data object holding exactly that
row's fields: date verbatim, open/high/low/close/adj_close as Python floats,
volume as a Python integer. -/
theorem get_stocks_by_date_found (rows : List Row) (d : String) (r : Row)
    (hmem : r ∈ rows) (hdate : r.date = d)
    (huniq : ∀ r2 ∈ rows, r2.date = d → r2 = r)
    (o hi lo c a : PyFloat) (v : Int)
    (ho : pyFloatE r.«open» = .ok o) (hh2 : pyFloatE r.high = .ok hi)
    (hl : pyFloatE r.low = .ok lo) (hc : pyFloatE r.close = .ok c)
    (ha : pyFloatE r.adj_close = .ok a) (hv : pyIntE r.volume = .ok v) :
    (get_stocks_by_date (.ok rows) d).1 =
      ⟨200, .obj [("success", .bool true),
        ("data", .obj [("date", .str r.date), ("open", .jfloat o), ("high", .jfloat hi),
          ("low", .jfloat lo), ("close", .jfloat c), ("adj_close", .jfloat a),
          ("volume", .jint v)]),
        ("message", .str ("Successfully retrieved stock data for " ++ d))]⟩ := by
  have hf : fetchone rows (dateQuery d) = some r := find_first_unique hmem hdate huniq
  have hrec : rowToRecord r =
      .ok [("date", .str r.date), ("open", .jfloat o), ("high", .jfloat hi),
        ("low", .jfloat lo), ("close", .jfloat c), ("adj_close", .jfloat a),
        ("volume", .jint v)] := by
    unfold rowToRecord
    rw [ho, hh2, hl, hc, ha, hv]
  simp only [get_stocks_by_date, hf, hrec]

/-- C3 witness: a concrete one-row table at its own date returns that row,
with float-typed prices and integer volume. -/
theorem get_stocks_by_date_found_w :
    (get_stocks_by_date (.ok
      [⟨"2021-06-15", .real ⟨255, 10⟩, .real ⟨262, 10⟩, .real ⟨251, 10⟩,
        .real ⟨258, 10⟩, .real ⟨258, 10⟩, .int 45000000⟩]) "2021-06-15").1 =
      ⟨200, .obj [("success", .bool true),
        ("data", .obj [("date", .str "2021-06-15"), ("open", .jfloat ⟨255, 10⟩),
          ("high", .jfloat ⟨262, 10⟩), ("low", .jfloat ⟨251, 10⟩),
          ("close", .jfloat ⟨258, 10⟩), ("adj_close", .jfloat ⟨258, 10⟩),
          ("volume", .jint 45000000)]),
        ("message", .str "Successfully retrieved stock data for 2021-06-15")]⟩ :=
  get_stocks_by_date_found
    [⟨"2021-06-15", .real ⟨255, 10⟩, .real ⟨262, 10⟩, .real ⟨251, 10⟩,
      .real ⟨258, 10⟩, .real ⟨258, 10⟩, .int 45000000⟩]
    "2021-06-15"
    ⟨"2021-06-15", .real ⟨255, 10⟩, .real ⟨262, 10⟩, .real ⟨251, 10⟩,
      .real ⟨258, 10⟩, .real ⟨258, 10⟩, .int 45000000⟩
    (List.mem_singleton.mpr rfl) rfl (by decide)
    ⟨255, 10⟩ ⟨262, 10⟩ ⟨251, 10⟩ ⟨258, 10⟩ ⟨258, 10⟩ 45000000
    rfl rfl rfl rfl rfl rfl

/-- C5 counterexample: the claim says the date endpoint uses the same error
labels as the all-stocks endpoint, but on the same store error the
all-stocks endpoint labels it "Database error" while the date endpoint
labels it "Database Error" — different strings. -/
theorem error_label_mismatch_cex :
    (get_stocks (.queryFail "no such table: stocks")).1.body.getField "error" =
      some (.str "Database error") ∧
    (get_stocks_by_date (.queryFail "no such table: stocks") "2021-01-01").1.body.getField
      "error" = some (.str "Database Error") ∧
    "Database error" ≠ "Database Error" :=
  ⟨rfl, rfl, by decide⟩

/-- C5 amended: on store errors and on other exceptions both endpoints
return status 500 with the same body shape {success:false, error, message},
but the date endpoint's error labels are "Database Error" and
"Internal Server Error", capitalized differently from the all-stocks
endpoint's "Database error" and "Internal server error". -/
theorem error_responses_shape_amended (msg d e1 e2 : String)
    (rows1 rows2 : List Row) (r : Row)
    (h1 : convertAll (sortByDate rows1) = .error e1)
    (h2 : fetchone rows2 (dateQuery d) = some r)
    (h3 : rowToRecord r = .error e2) :
    (get_stocks (.queryFail msg)).1 = ⟨500, errObj "Database error" msg⟩ ∧
    (get_stocks (.connectFail msg)).1 = ⟨500, errObj "Database error" msg⟩ ∧
    (get_stocks_by_date (.queryFail msg) d).1 = ⟨500, errObj "Database Error" msg⟩ ∧
    (get_stocks_by_date (.connectFail msg) d).1 = ⟨500, errObj "Database Error" msg⟩ ∧
    (get_stocks (.ok rows1)).1 = ⟨500, errObj "Internal server error" e1⟩ ∧
    (get_stocks_by_date (.ok rows2) d).1 = ⟨500, errObj "Internal Server Error" e2⟩ := by
  refine ⟨rfl, rfl, rfl, rfl, ?_, ?_⟩
  · simp only [get_stocks, h1]
  · simp only [get_stocks_by_date, h2, h3]

/-- C5 amended witness: a table whose row has non-numeric text in a price
column produces the internal-error bodies with the two differently
capitalized labels. -/
theorem error_responses_shape_amended_w :
    (get_stocks (.ok
      [⟨"2020-09-30", .text "abc", .int 1, .int 1, .int 1, .int 1, .int 1⟩])).1 =
      ⟨500, errObj "Internal server error" "could not convert string to float: abc"⟩ ∧
    (get_stocks_by_date (.ok
      [⟨"2021-01-01", .text "abc", .int 1, .int 1, .int 1, .int 1, .int 1⟩])
      "2021-01-01").1 =
      ⟨500, errObj "Internal Server Error" "could not convert string to float: abc"⟩ :=
  have h := error_responses_shape_amended "boom" "2021-01-01"
    "could not convert string to float: abc" "could not convert string to float: abc"
    [⟨"2020-09-30", .text "abc", .int 1, .int 1, .int 1, .int 1, .int 1⟩]
    [⟨"2021-01-01", .text "abc", .int 1, .int 1, .int 1, .int 1, .int 1⟩]
    ⟨"2021-01-01", .text "abc", .int 1, .int 1, .int 1, .int 1, .int 1⟩
    rfl rfl rfl
  ⟨h.2.2.2.2.1, h.2.2.2.2.2⟩

/-- C6 counterexample: the claim says the connection is closed on every exit
path, but when the query raises, both handlers produce their 500 response
with the opened connection never closed (there is no finally block; the
close call sits inside the try, after the query and, in get_stocks, after
the conversion loop). -/
theorem conn_leak_on_query_error_cex :
    (get_stocks (.queryFail "disk I/O error")).1.status = 500 ∧
    (get_stocks (.queryFail "disk I/O error")).2.opened = true ∧
    (get_stocks (.queryFail "disk I/O error")).2.closed = false ∧
    (get_stocks_by_date (.queryFail "disk I/O error") "2021-01-01").2.opened = true ∧
    (get_stocks_by_date (.queryFail "disk I/O error") "2021-01-01").2.closed = false :=
  ⟨rfl, rfl, rfl, rfl, rfl⟩

/-- C6 amended: the connection opened for a request is closed exactly on
these paths — for GET /api/stocks, when the query succeeds and every row
converts (a query error or a conversion error leaves it unclosed); for
GET /api/stocks/date/.., whenever the query succeeds (including the 404
path and the conversion-error path, since close precedes conversion there),
but not when connect or the query raises. -/
theorem conn_close_characterization (db : DBOutcome) (d : String) :
    ((get_stocks db).2.closed = true ↔
      ∃ rows recs, db = .ok rows ∧ convertAll (sortByDate rows) = .ok recs) ∧
    ((get_stocks_by_date db d).2.closed = true ↔ ∃ rows, db = .ok rows) := by
  constructor
  · cases db with
    | connectFail msg =>
      simp only [get_stocks]
      constructor
      · intro hfalse; exact Bool.noConfusion hfalse
      · rintro ⟨rows2, recs, heq, hconv⟩; exact DBOutcome.noConfusion heq
    | queryFail msg =>
      simp only [get_stocks]
      constructor
      · intro hfalse; exact Bool.noConfusion hfalse
      · rintro ⟨rows2, recs, heq, hconv⟩; exact DBOutcome.noConfusion heq
    | ok rows =>
      cases h : convertAll (sortByDate rows) with
      | error e =>
        simp only [get_stocks, h]
        constructor
        · intro hfalse; exact Bool.noConfusion hfalse
        · rintro ⟨rows2, recs, heq, hconv⟩
          cases heq
          rw [h] at hconv
          exact Except.noConfusion hconv
      | ok recs =>
        simp only [get_stocks, h]
        constructor
        · intro _
          exact ⟨rows, recs, rfl, h⟩
        · intro _
          simp
  · cases db with
    | connectFail msg =>
      simp only [get_stocks_by_date]
      constructor
      · intro hfalse; exact Bool.noConfusion hfalse
      · rintro ⟨rows2, heq⟩; exact DBOutcome.noConfusion heq
    | queryFail msg =>
      simp only [get_stocks_by_date]
      constructor
      · intro hfalse; exact Bool.noConfusion hfalse
      · rintro ⟨rows2, heq⟩; exact DBOutcome.noConfusion heq
    | ok rows =>
      cases hf : fetchone rows (dateQuery d) with
      | none =>
        simp only [get_stocks_by_date, hf]
        constructor
        · intro _
          exact ⟨rows, rfl⟩
        · intro _
          simp
      | some r =>
        cases hr : rowToRecord r with
        | error e =>
          simp only [get_stocks_by_date, hf, hr]
          constructor
          · intro _
            exact ⟨rows, rfl⟩
          · intro _
            simp
        | ok rec =>
          simp only [get_stocks_by_date, hf, hr]
          constructor
          · intro _
            exact ⟨rows, rfl⟩
          · intro _
            simp

/-- C8: the date path segment is carried only as the bound parameter of a
query whose text is the fixed string `SELECT * FROM stocks WHERE date = ?`
for every input (no interpolation, so no input can alter the query's
structure), and the endpoint's outcome — status and data — depends only on
which stored date strings the parameter equals exactly. -/
theorem date_param_binding :
    (∀ d, (dateQuery d).text = queryText ∧ (dateQuery d).params = [d]) ∧
    (∀ d1 d2 rows, (∀ r ∈ rows, (r.date = d1 ↔ r.date = d2)) →
      (get_stocks_by_date (.ok rows) d1).1.status =
        (get_stocks_by_date (.ok rows) d2).1.status ∧
      (get_stocks_by_date (.ok rows) d1).1.body.getField "data" =
        (get_stocks_by_date (.ok rows) d2).1.body.getField "data") := by
  refine ⟨fun d => ⟨rfl, rfl⟩, fun d1 d2 rows h => ?_⟩
  have hfind : rows.find? (fun x => x.date == d1) = rows.find? (fun x => x.date == d2) :=
    find_date_congr rows d1 d2 h
  have hf1 : fetchone rows (dateQuery d1) = rows.find? (fun x => x.date == d2) := by
    rw [← hfind]; rfl
  have hf2 : fetchone rows (dateQuery d2) = rows.find? (fun x => x.date == d2) := rfl
  cases hv : rows.find? (fun x => x.date == d2) with
  | none =>
    rw [hv] at hf1 hf2
    simp only [get_stocks_by_date, hf1, hf2]
    exact ⟨by first | rfl | simp, by first | rfl | simp⟩
  | some r =>
    rw [hv] at hf1 hf2
    cases hr : rowToRecord r with
    | error e =>
      simp only [get_stocks_by_date, hf1, hf2, hr]
      exact ⟨by first | rfl | simp, by first | rfl | simp⟩
    | ok rec =>
      simp only [get_stocks_by_date, hf1, hf2, hr]
      exact ⟨by first | rfl | simp, by first | rfl | simp⟩

/-- C8 witness: against a concrete table, two dates that match no stored
date (a SQL-looking input among them) get identical status and data. -/
theorem date_param_binding_w :
    (dateQuery "2021-01-01").text = queryText ∧
    (get_stocks_by_date (.ok
      [⟨"2020-09-30", .int 10, .int 11, .int 9, .int 9, .int 9, .int 100⟩])
      "2021-01-01").1.status =
    (get_stocks_by_date (.ok
      [⟨"2020-09-30", .int 10, .int 11, .int 9, .int 9, .int 9, .int 100⟩])
      "x OR 1=1").1.status :=
  ⟨(date_param_binding.1 "2021-01-01").1,
   (date_param_binding.2 "2021-01-01" "x OR 1=1"
     [⟨"2020-09-30", .int 10, .int 11, .int 9, .int 9, .int 9, .int 100⟩]
     (by decide)).1⟩

/-- C9: in every successful response of both data endpoints, each record in
the data field carries the five price fields as Python floats and volume as
a Python integer — whatever the dynamic types the store returned, including
text-typed numerics (they pass through float()/int() before serialization). -/
theorem success_responses_coerced (db : DBOutcome) (d : String) :
    (∀ l, (get_stocks db).1.body.getField "data" = some (.arr l) →
      ∀ j ∈ l, recordWellTyped j = true) ∧
    (∀ j, (get_stocks_by_date db d).1.body.getField "data" = some j →
      recordWellTyped j = true) := by
  constructor
  · intro l hl j hj
    cases db with
    | connectFail msg =>
      have hbody : (get_stocks (DBOutcome.connectFail msg)).1.body.getField "data" = none := rfl
      rw [hbody] at hl
      exact Option.noConfusion hl
    | queryFail msg =>
      have hbody : (get_stocks (DBOutcome.queryFail msg)).1.body.getField "data" = none := rfl
      rw [hbody] at hl
      exact Option.noConfusion hl
    | ok rows =>
      cases h : convertAll (sortByDate rows) with
      | error e =>
        have hbody : (get_stocks (DBOutcome.ok rows)).1.body.getField "data" = none := by
          simp only [get_stocks, h]
          rfl
        rw [hbody] at hl
        exact Option.noConfusion hl
      | ok recs =>
        have hbody : (get_stocks (DBOutcome.ok rows)).1.body.getField "data" =
            some (.arr (recs.map JsonVal.obj)) := by
          simp only [get_stocks, h]
          rfl
        rw [hbody] at hl
        have hlrecs : l = recs.map JsonVal.obj := by
          injection hl with hl2
          injection hl2.symm
        subst hlrecs
        rcases List.mem_map.mp hj with ⟨rec, hrec, hjrec⟩
        rcases convertAll_mem h rec hrec with ⟨r2, _, hc2⟩
        rw [← hjrec]
        exact recordWellTyped_of_rowToRecord hc2
  · intro j hj
    cases db with
    | connectFail msg =>
      have hbody : (get_stocks_by_date (DBOutcome.connectFail msg) d).1.body.getField
          "data" = none := rfl
      rw [hbody] at hj
      exact Option.noConfusion hj
    | queryFail msg =>
      have hbody : (get_stocks_by_date (DBOutcome.queryFail msg) d).1.body.getField
          "data" = none := rfl
      rw [hbody] at hj
      exact Option.noConfusion hj
    | ok rows =>
      cases hf : fetchone rows (dateQuery d) with
      | none =>
        have hbody : (get_stocks_by_date (DBOutcome.ok rows) d).1.body.getField
            "data" = none := by
          simp only [get_stocks_by_date, hf]
          rfl
        rw [hbody] at hj
        exact Option.noConfusion hj
      | some r =>
        cases hr : rowToRecord r with
        | error e =>
          have hbody : (get_stocks_by_date (DBOutcome.ok rows) d).1.body.getField
              "data" = none := by
            simp only [get_stocks_by_date, hf, hr]
            rfl
          rw [hbody] at hj
          exact Option.noConfusion hj
        | ok rec =>
          have hbody : (get_stocks_by_date (DBOutcome.ok rows) d).1.body.getField
              "data" = some (.obj rec) := by
            simp only [get_stocks_by_date, hf, hr]
            rfl
          rw [hbody] at hj
          have hjrec : j = JsonVal.obj rec := by
            injection hj with hj2
            exact hj2.symm
          rw [hjrec]
          exact recordWellTyped_of_rowToRecord hr

/-- C9 witness: a table whose row stores every numeric as text still yields
a 200 record with float-typed prices and an integer volume. -/
theorem success_responses_coerced_w :
    recordWellTyped (.obj [("date", .str "2020-09-30"), ("open", .jfloat ⟨100, 10⟩),
      ("high", .jfloat ⟨1141, 100⟩), ("low", .jfloat ⟨911, 100⟩),
      ("close", .jfloat ⟨95, 10⟩), ("adj_close", .jfloat ⟨95, 10⟩),
      ("volume", .jint 338584400)]) = true :=
  (success_responses_coerced (.ok
      [⟨"2020-09-30", .text "10.0", .text "11.41", .text "9.11", .text "9.5",
        .text "9.5", .text "338584400"⟩]) "2020-09-30").1
    [.obj [("date", .str "2020-09-30"), ("open", .jfloat ⟨100, 10⟩),
      ("high", .jfloat ⟨1141, 100⟩), ("low", .jfloat ⟨911, 100⟩),
      ("close", .jfloat ⟨95, 10⟩), ("adj_close", .jfloat ⟨95, 10⟩),
      ("volume", .jint 338584400)]]
    rfl
    (.obj [("date", .str "2020-09-30"), ("open", .jfloat ⟨100, 10⟩),
      ("high", .jfloat ⟨1141, 100⟩), ("low", .jfloat ⟨911, 100⟩),
      ("close", .jfloat ⟨95, 10⟩), ("adj_close", .jfloat ⟨95, 10⟩),
      ("volume", .jint 338584400)])
    (List.mem_singleton.mpr rfl)

/-- C10: even when the table holds several rows with the same date
(violating the invariant), GET /api/stocks/date/d still returns status 200
with a single record — the first row the query yields — never a list and
never an error. -/
theorem duplicate_date_single_record (rows : List Row) (d : String) (r1 : Row)
    (hfirst : rows.find? (fun x => x.date == d) = some r1)
    (hdup : 2 ≤ (rows.filter (fun x => x.date == d)).length)
    (rec : List (String × JsonVal)) (hconv : rowToRecord r1 = .ok rec) :
    (get_stocks_by_date (.ok rows) d).1.status = 200 ∧
    (get_stocks_by_date (.ok rows) d).1.body.getField "data" = some (.obj rec) ∧
    (∀ l, (get_stocks_by_date (.ok rows) d).1.body.getField "data" ≠ some (.arr l)) ∧
    (get_stocks_by_date (.ok rows) d).1.body.getField "success" = some (.bool true) := by
  have hf : fetchone rows (dateQuery d) = some r1 := hfirst
  have hresp : (get_stocks_by_date (.ok rows) d).1 =
      ⟨200, .obj [("success", .bool true),
        ("data", .obj rec),
        ("message", .str ("Successfully retrieved stock data for " ++ d))]⟩ := by
    simp only [get_stocks_by_date, hf, hconv]
  refine ⟨by rw [hresp], by rw [hresp]; rfl, ?_, by rw [hresp]; rfl⟩
  intro l heq
  rw [hresp] at heq
  have : JsonVal.obj rec = JsonVal.arr l := by
    have h0 : some (JsonVal.obj rec) = some (JsonVal.arr l) := by
      calc some (JsonVal.obj rec)
          = (JsonVal.obj [("success", JsonVal.bool true), ("data", JsonVal.obj rec),
              ("message", JsonVal.str ("Successfully retrieved stock data for " ++ d))]
              ).getField "data" := rfl
        _ = some (JsonVal.arr l) := heq
    injection h0
  exact JsonVal.noConfusion this

/-- C10 witness: a table with two rows sharing one date returns 200 with
the first of them as the single record. -/
theorem duplicate_date_single_record_w :
    (get_stocks_by_date (.ok
      [⟨"2021-06-15", .int 25, .int 26, .int 25, .int 25, .int 25, .int 100⟩,
       ⟨"2021-06-15", .int 30, .int 31, .int 30, .int 30, .int 30, .int 200⟩])
      "2021-06-15").1.status = 200 :=
  (duplicate_date_single_record
    [⟨"2021-06-15", .int 25, .int 26, .int 25, .int 25, .int 25, .int 100⟩,
     ⟨"2021-06-15", .int 30, .int 31, .int 30, .int 30, .int 30, .int 200⟩]
    "2021-06-15"
    ⟨"2021-06-15", .int 25, .int 26, .int 25, .int 25, .int 25, .int 100⟩
    rfl (by decide)
    [("date", .str "2021-06-15"), ("open", .jfloat ⟨25, 1⟩), ("high", .jfloat ⟨26, 1⟩),
     ("low", .jfloat ⟨25, 1⟩), ("close", .jfloat ⟨25, 1⟩), ("adj_close", .jfloat ⟨25, 1⟩),
     ("volume", .jint 100)]
    rfl).1
